import Mathlib

/-!
Verification of the rate-limiting and authentication middleware of a
template HTTP API service.

Shallow embedding of:
- src/api/middleware/rate_limit.py: the sliding-window rate limiter
  (global middleware check, per-route dependency check, client-identity
  derivation),
- src/api/middleware/auth.py: the API-key / bearer authentication gate,
- src/core/config.py: derivation of the valid API-key list.

Timestamps are modelled as exact rationals, machine integers as Nat/Int.
Per-identity timestamp logs are passed explicitly as lists; a check
returns the decision together with the new value of the log, mirroring
the in-place mutation of the shared map in the source.
-/

/-- Python builtin int() applied to an exact rational: truncation toward
zero (floor for nonnegative arguments, ceiling for negative ones). -/
def pythonInt (q : ℚ) : ℤ := if 0 ≤ q then ⌊q⌋ else ⌈q⌉

/-- Truthiness of an optional string in Python: a missing value and the
empty string are falsy, every other string is truthy. -/
def truthy : Option String → Bool
  | none => false
  | some s => !s.isEmpty

/-- The RateLimitDecision record: allowed flag plus the three values
emitted in the X-RateLimit-Limit / -Remaining / -Reset headers. -/
structure Decision where
  allowed : Bool
  limit : ℕ
  remaining : ℤ
  reset_at : ℤ
  deriving DecidableEq, Repr

/-- State of RateLimitMiddleware fixed by its constructor:
self.max_requests and self.window_seconds. -/
structure RateLimitMiddleware where
  max_requests : ℕ
  window_seconds : ℤ
  deriving DecidableEq, Repr

/-- RateLimitMiddleware.__init__: the only tunable parameter is
requests_per_minute; window_seconds is hard-coded to 60. -/
def RateLimitMiddleware.init (requests_per_minute : ℕ) : RateLimitMiddleware :=
  ⟨requests_per_minute, 60⟩

/-- The pruning comprehension shared by both checks: keep exactly the
log entries with timestamp strictly greater than now - window. -/
def prunedLog (window : ℤ) (now : ℚ) (log : List ℚ) : List ℚ :=
  log.filter (fun t => decide (now - (window : ℚ) < t))

/-- The rate-limit check portion of RateLimitMiddleware.dispatch for one
identity: prune the timestamp log to entries strictly newer than
now - window_seconds, count them, compute remaining and reset values, and
either reject (429, log left pruned) or admit (now appended to the log). -/
def RateLimitMiddleware.dispatchCheck (m : RateLimitMiddleware) (now : ℚ)
    (log : List ℚ) : Decision × List ℚ :=
  let pruned : List ℚ := prunedLog m.window_seconds now log
  let request_count : ℕ := pruned.length
  let remaining : ℤ := max 0 ((m.max_requests : ℤ) - (request_count : ℤ) - 1)
  let reset_time : ℤ := pythonInt ((now - (m.window_seconds : ℚ)) + (m.window_seconds : ℚ))
  if m.max_requests ≤ request_count then
    (⟨false, m.max_requests, remaining, reset_time⟩, pruned)
  else
    (⟨true, m.max_requests, remaining, reset_time⟩, pruned ++ [now])

/-- The per-route dependency produced by rate_limit(requests, window):
prune the keyed log, raise 429 when the count has reached the limit
(no append), otherwise append now and admit. -/
def rate_limit_dependency (requests : ℕ) (window : ℤ) (now : ℚ)
    (log : List ℚ) : Bool × List ℚ :=
  let pruned : List ℚ := prunedLog window now log
  if requests ≤ pruned.length then
    (false, pruned)
  else
    (true, pruned ++ [now])

/-- The request data consulted by client-identity derivation: the
X-API-Key, X-Forwarded-For and X-Real-IP headers, and the direct
connection peer host (none when request.client is absent). -/
structure Request where
  api_key : Option String
  forwarded_for : Option String
  real_ip : Option String
  client_host : Option String
  deriving DecidableEq, Repr

/-- RateLimitMiddleware._get_client_id: a truthy X-API-Key yields
key: plus the first 16 characters; else a truthy X-Forwarded-For yields
ip: plus its first comma-separated entry stripped; else the peer host;
else the sentinel ip:unknown. The X-Real-IP header is not consulted. -/
def get_client_id (r : Request) : String :=
  if truthy r.api_key then
    "key:" ++ (r.api_key.getD "").take 16
  else if truthy r.forwarded_for then
    "ip:" ++ (((r.forwarded_for.getD "").splitOn ",").headD "").trim
  else
    match r.client_host with
    | some host => "ip:" ++ host
    | none => "ip:unknown"

/-- Client-identity derivation as the claim words it, for comparison with
get_client_id: a present X-API-Key always yields the key form, then the
first X-Forwarded-For entry, then the X-Real-IP header, then the peer
host, then the sentinel. -/
def get_client_id_claimed (r : Request) : String :=
  match r.api_key with
  | some k => "key:" ++ k.take 16
  | none =>
    match r.forwarded_for with
    | some f => "ip:" ++ ((f.splitOn ",").headD "").trim
    | none =>
      match r.real_ip with
      | some ip => "ip:" ++ ip
      | none =>
        match r.client_host with
        | some host => "ip:" ++ host
        | none => "ip:unknown"

/-- The three authentication failures raised in auth.py. -/
inductive AuthError where
  | invalidApiKey
  | bearerNotConfigured
  | authenticationRequired
  deriving DecidableEq, Repr

/-- The authenticated principal returned by get_current_user: an api_key
principal carrying the masked key, or a token principal. -/
inductive Principal where
  | apiKeyPrincipal (keyMask : String)
  | tokenPrincipal
  deriving DecidableEq, Repr

/-- The HTTP error produced for an AuthError: status code, detail string,
and the optional WWW-Authenticate header value. -/
structure ErrorResponse where
  status : ℕ
  detail : String
  www_authenticate : Option String
  deriving DecidableEq, Repr

/-- The HTTPException raised for each AuthError in auth.py: all three are
401; only the authentication-required one passes a headers dict carrying
WWW-Authenticate Bearer. -/
def authErrorResponse : AuthError → ErrorResponse
  | .invalidApiKey => ⟨401, "Invalid API key", none⟩
  | .bearerNotConfigured => ⟨401, "Bearer token authentication not configured", none⟩
  | .authenticationRequired => ⟨401, "Authentication required", some "Bearer"⟩

/-- verify_api_key: absent header succeeds with an absent result; a
supplied key not in the configured valid set raises InvalidApiKey; a
valid key is echoed back. -/
def verify_api_key (validKeys : List String) (api_key : Option String) :
    Except AuthError (Option String) :=
  match api_key with
  | none => .ok none
  | some k => if k ∈ validKeys then .ok (some k) else .error .invalidApiKey

/-- verify_bearer_token: absent credentials succeed with an absent
result; any supplied bearer token is rejected (the verification backend
is an intentional fail-closed stub). -/
def verify_bearer_token (credentials : Option String) :
    Except AuthError (Option String) :=
  match credentials with
  | none => .ok none
  | some _ => .error .bearerNotConfigured

/-- The body of get_current_user, applied to the two resolved dependency
results: a truthy api_key yields the api_key principal with the first 8
characters of the key followed by an ellipsis; else a present token
payload yields the token principal; else AuthenticationRequired. -/
def get_current_user (api_key : Option String) (token_payload : Option String) :
    Except AuthError Principal :=
  if truthy api_key then
    .ok (.apiKeyPrincipal ((api_key.getD "").take 8 ++ "..."))
  else
    match token_payload with
    | some _ => .ok .tokenPrincipal
    | none => .error .authenticationRequired

/-- The full dependency pipeline of a request hitting get_current_user:
FastAPI resolves verify_api_key first, then verify_bearer_token, in
declaration order; an HTTPException raised by either dependency
terminates the request before get_current_user runs. -/
def authenticate (validKeys : List String) (api_key : Option String)
    (credentials : Option String) : Except AuthError Principal :=
  match verify_api_key validKeys api_key with
  | .error e => .error e
  | .ok keyResult =>
    match verify_bearer_token credentials with
    | .error e => .error e
    | .ok tokenResult => get_current_user keyResult tokenResult

/-- Settings.api_keys: the empty configured string yields the empty list;
otherwise split on commas, strip each entry, and keep the non-empty
results. -/
def Settings.api_keys (api_keys_str : String) : List String :=
  if api_keys_str = "" then []
  else ((api_keys_str.splitOn ",").map String.trim).filter (fun k => !k.isEmpty)

/-- N identical, atomically scheduled checks for one identity at time now
against the shared log: returns the admitted count, the rejected count,
and the final log. Each check is one atomic step because the check
section of dispatch contains no await point. -/
def runChecks (m : RateLimitMiddleware) (now : ℚ) : ℕ → List ℚ → (ℕ × ℕ) × List ℚ
  | 0, log => ((0, 0), log)
  | n + 1, log =>
    let step := m.dispatchCheck now log
    let rest := runChecks m now n step.2
    if step.1.allowed then
      ((rest.1.1 + 1, rest.1.2), rest.2)
    else
      ((rest.1.1, rest.1.2 + 1), rest.2)

/-- C8: every RateLimitMiddleware instance has window_seconds equal to
the constant 60, whatever requests_per_minute the constructor received;
the window length is not configurable. -/
theorem c8_window_is_constant_60 (requests_per_minute : ℕ) :
    (RateLimitMiddleware.init requests_per_minute).window_seconds = 60 := rfl

/-- C1: with positive limit and window, a dispatch check prunes the log
to exactly the entries with timestamp strictly above now - window_seconds,
counts the survivors n, rejects with remaining 0 and no append when
n has reached the limit, and otherwise appends now and admits with
remaining max 0 (limit - n - 1). -/
theorem c1_sliding_window_check (m : RateLimitMiddleware) (now : ℚ)
    (log : List ℚ) (_hL : 0 < m.max_requests) (_hW : 0 < m.window_seconds) :
    (∀ t : ℚ, t ∈ prunedLog m.window_seconds now log ↔
      t ∈ log ∧ now - (m.window_seconds : ℚ) < t) ∧
    (m.max_requests ≤ (prunedLog m.window_seconds now log).length →
      (m.dispatchCheck now log).1.allowed = false ∧
      (m.dispatchCheck now log).1.remaining = 0 ∧
      (m.dispatchCheck now log).2 = prunedLog m.window_seconds now log) ∧
    ((prunedLog m.window_seconds now log).length < m.max_requests →
      (m.dispatchCheck now log).1.allowed = true ∧
      (m.dispatchCheck now log).2 = prunedLog m.window_seconds now log ++ [now] ∧
      (m.dispatchCheck now log).1.remaining =
        max 0 ((m.max_requests : ℤ) - ((prunedLog m.window_seconds now log).length : ℤ) - 1)) := by
  refine ⟨?_, ?_, ?_⟩
  · intro t
    simp [prunedLog, List.mem_filter, and_comm]
  · intro h
    simp only [RateLimitMiddleware.dispatchCheck]
    rw [if_pos h]
    refine ⟨rfl, ?_, rfl⟩
    have hle : (m.max_requests : ℤ) - ((prunedLog m.window_seconds now log).length : ℤ) - 1 ≤ 0 := by
      omega
    exact max_eq_left hle
  · intro h
    simp only [RateLimitMiddleware.dispatchCheck]
    rw [if_neg (not_le.mpr h)]
    exact ⟨rfl, rfl, rfl⟩

/-- Witness for C1 at a concrete rejected input: limit 2, window 60,
now 100, log containing one stale and two fresh entries. -/
theorem c1_witness :
    ((RateLimitMiddleware.mk 2 60).dispatchCheck 100 [10, 50, 90]).1.allowed = false ∧
    ((RateLimitMiddleware.mk 2 60).dispatchCheck 100 [10, 50, 90]).1.remaining = 0 ∧
    ((RateLimitMiddleware.mk 2 60).dispatchCheck 100 [10, 50, 90]).2 = [50, 90] := by
  have hp : (2 : ℕ) ≤ (prunedLog (60 : ℤ) 100 [10, 50, 90]).length := by
    norm_num [prunedLog, List.filter]
  have h := (c1_sliding_window_check ⟨2, 60⟩ 100 [10, 50, 90] (by norm_num) (by norm_num)).2.1 hp
  refine ⟨h.1, h.2.1, ?_⟩
  rw [h.2.2]
  norm_num [prunedLog, List.filter]

/-- C4 counterexample: a rejected check can still shrink the log, because
pruning happens before the limit test; with limit 1, window 60, now 100
and prior log with entries 0 and 50, the check rejects yet the log length
changes from 2 to 1. -/
theorem c4_counterexample :
    ((RateLimitMiddleware.mk 1 60).dispatchCheck 100 [0, 50]).1.allowed = false ∧
    ((RateLimitMiddleware.mk 1 60).dispatchCheck 100 [0, 50]).2.length ≠
      ([0, 50] : List ℚ).length := by
  norm_num [RateLimitMiddleware.dispatchCheck, prunedLog, List.filter]

/-- C4 amended: a rejected check never appends: for both the global
dispatch check and the per-route dependency, a rejected call leaves the
log equal to the pruned prior log, a sublist of the prior log (so the
log is unchanged exactly when no prior entry has aged out). -/
theorem c4_rejected_check_only_prunes (m : RateLimitMiddleware)
    (requests : ℕ) (window : ℤ) (now : ℚ) (log : List ℚ) :
    ((m.dispatchCheck now log).1.allowed = false →
      (m.dispatchCheck now log).2 = prunedLog m.window_seconds now log ∧
      (m.dispatchCheck now log).2.Sublist log) ∧
    ((rate_limit_dependency requests window now log).1 = false →
      (rate_limit_dependency requests window now log).2 = prunedLog window now log ∧
      (rate_limit_dependency requests window now log).2.Sublist log) := by
  constructor
  · intro h
    by_cases hc : m.max_requests ≤ (prunedLog m.window_seconds now log).length
    · simp only [RateLimitMiddleware.dispatchCheck]
      rw [if_pos hc]
      exact ⟨rfl, List.filter_sublist log⟩
    · exfalso
      simp [RateLimitMiddleware.dispatchCheck, hc] at h
  · intro h
    by_cases hc : requests ≤ (prunedLog window now log).length
    · simp only [rate_limit_dependency]
      rw [if_pos hc]
      exact ⟨rfl, List.filter_sublist log⟩
    · exfalso
      simp [rate_limit_dependency, hc] at h

/-- Witness for C4 at concrete rejected inputs for both check forms. -/
theorem c4_witness :
    (((RateLimitMiddleware.mk 1 60).dispatchCheck 100 [50]).2 = prunedLog 60 100 [50] ∧
      ((RateLimitMiddleware.mk 1 60).dispatchCheck 100 [50]).2.Sublist [50]) ∧
    ((rate_limit_dependency 1 60 100 [50]).2 = prunedLog 60 100 [50] ∧
      (rate_limit_dependency 1 60 100 [50]).2.Sublist [50]) := by
  have h := c4_rejected_check_only_prunes ⟨1, 60⟩ 1 60 100 [50]
  refine ⟨h.1 ?_, h.2 ?_⟩
  · norm_num [RateLimitMiddleware.dispatchCheck, prunedLog, List.filter]
  · norm_num [rate_limit_dependency, prunedLog, List.filter]

/-- C5 counterexample: the reset value of a rejected check is the floor
of now, which is strictly below now whenever now is not an integer: with
limit 1, window 60, now 100.5 and log containing 100, the check rejects
and reset_at is 100 < 100.5. -/
theorem c5_counterexample :
    ((RateLimitMiddleware.mk 1 60).dispatchCheck (201 / 2) [100]).1.allowed = false ∧
    ¬ ((201 / 2 : ℚ) ≤
        (((RateLimitMiddleware.mk 1 60).dispatchCheck (201 / 2) [100]).1.reset_at : ℚ)) := by
  norm_num [RateLimitMiddleware.dispatchCheck, prunedLog, List.filter, pythonInt]

/-- C5 amended: for nonnegative now, every check's reset_at equals
floor(now - window_seconds) + window_seconds (which equals floor(now)),
and on a rejected request reset_at is strictly greater than now - 1;
it is greater than or equal to now only when now is an integer. -/
theorem c5_reset_at_formula (m : RateLimitMiddleware) (now : ℚ)
    (log : List ℚ) (hnow : 0 ≤ now) :
    (m.dispatchCheck now log).1.reset_at =
      ⌊now - (m.window_seconds : ℚ)⌋ + m.window_seconds ∧
    ((m.dispatchCheck now log).1.allowed = false →
      now - 1 < (((m.dispatchCheck now log).1.reset_at : ℤ) : ℚ)) := by
  have hr : (m.dispatchCheck now log).1.reset_at =
      pythonInt ((now - (m.window_seconds : ℚ)) + (m.window_seconds : ℚ)) := by
    simp only [RateLimitMiddleware.dispatchCheck]
    split <;> rfl
  have hcancel : (now - (m.window_seconds : ℚ)) + (m.window_seconds : ℚ) = now := by ring
  have hfloor : (m.dispatchCheck now log).1.reset_at = ⌊now⌋ := by
    rw [hr, hcancel, pythonInt, if_pos hnow]
  constructor
  · rw [hfloor, Int.floor_sub_int]
    ring
  · intro _
    rw [hfloor]
    exact Int.sub_one_lt_floor now

/-- Witness for C5 at the concrete rejected input of the counterexample. -/
theorem c5_witness :
    ((RateLimitMiddleware.mk 1 60).dispatchCheck (201 / 2) [100]).1.reset_at =
      ⌊(201 / 2 : ℚ) - ((60 : ℤ) : ℚ)⌋ + 60 ∧
    (((RateLimitMiddleware.mk 1 60).dispatchCheck (201 / 2) [100]).1.allowed = false →
      (201 / 2 : ℚ) - 1 <
        ((((RateLimitMiddleware.mk 1 60).dispatchCheck (201 / 2) [100]).1.reset_at : ℤ) : ℚ)) :=
  c5_reset_at_formula ⟨1, 60⟩ (201 / 2) [100] (by norm_num)

/-- Pruning a log whose entries all equal now keeps everything when the
window is positive. -/
lemma prunedLog_replicate (w : ℤ) (now : ℚ) (hW : 0 < w) (k : ℕ) :
    prunedLog w now (List.replicate k now) = List.replicate k now := by
  apply List.filter_eq_self.mpr
  intro a ha
  rw [List.eq_of_mem_replicate ha]
  simp only [decide_eq_true_eq]
  have hpos : (0 : ℚ) < (w : ℚ) := by exact_mod_cast hW
  linarith

/-- A dispatch check at time now against a log of k copies of now rejects
and leaves the log unchanged when k has reached the limit. -/
lemma dispatchCheck_replicate_reject (m : RateLimitMiddleware) (now : ℚ)
    (hW : 0 < m.window_seconds) (k : ℕ) (hk : m.max_requests ≤ k) :
    (m.dispatchCheck now (List.replicate k now)).1.allowed = false ∧
    (m.dispatchCheck now (List.replicate k now)).2 = List.replicate k now := by
  have hp := prunedLog_replicate m.window_seconds now hW k
  simp only [RateLimitMiddleware.dispatchCheck, hp, List.length_replicate]
  rw [if_pos hk]
  exact ⟨rfl, rfl⟩

/-- A dispatch check at time now against a log of k copies of now admits
and appends now when k is below the limit. -/
lemma dispatchCheck_replicate_allowed (m : RateLimitMiddleware) (now : ℚ)
    (hW : 0 < m.window_seconds) (k : ℕ) (hk : k < m.max_requests) :
    (m.dispatchCheck now (List.replicate k now)).1.allowed = true ∧
    (m.dispatchCheck now (List.replicate k now)).2 = List.replicate (k + 1) now := by
  have hp := prunedLog_replicate m.window_seconds now hW k
  simp only [RateLimitMiddleware.dispatchCheck, hp, List.length_replicate]
  rw [if_neg (not_le.mpr hk)]
  exact ⟨rfl, (List.replicate_succ' k now).symm⟩

/-- Running N atomic checks for one identity from a log of k copies of
now admits min N (limit - k) of them and rejects the rest. -/
lemma runChecks_replicate (m : RateLimitMiddleware) (now : ℚ)
    (hW : 0 < m.window_seconds) :
    ∀ N k : ℕ, (runChecks m now N (List.replicate k now)).1 =
      (min N (m.max_requests - k), N - min N (m.max_requests - k)) := by
  intro N
  induction N with
  | zero =>
    intro k
    simp [runChecks]
  | succ n ih =>
    intro k
    by_cases hk : k < m.max_requests
    · obtain ⟨ha, hl⟩ := dispatchCheck_replicate_allowed m now hW k hk
      simp only [runChecks, ha, hl, if_true]
      rw [ih (k + 1)]
      refine Prod.ext ?_ ?_ <;> simp <;> omega
    · obtain ⟨ha, hl⟩ := dispatchCheck_replicate_reject m now hW k (not_lt.mp hk)
      simp only [runChecks, ha, hl, if_false]
      rw [ih k]
      refine Prod.ext ?_ ?_ <;> simp <;> omega

/-- C2: N checks for one identity issued simultaneously (each check is
one atomic step: the check section of dispatch contains no await point,
so no interleaving splits its read and append), starting from an empty
log with limit L < N and a positive window, produce exactly L admissions
and N - L rejections under every schedule. -/
theorem c2_concurrent_checks_admit_exactly_limit (m : RateLimitMiddleware)
    (now : ℚ) (N : ℕ) (hW : 0 < m.window_seconds) (hN : m.max_requests < N) :
    (runChecks m now N []).1 = (m.max_requests, N - m.max_requests) := by
  have h0 := runChecks_replicate m now hW N 0
  rw [List.replicate_zero] at h0
  rw [h0]
  have hmin : min N (m.max_requests - 0) = m.max_requests := by omega
  rw [hmin]

/-- Witness for C2: three simultaneous checks with limit 2 give exactly
two admissions and one rejection. -/
theorem c2_witness : (runChecks ⟨2, 60⟩ 0 3 []).1 = (2, 1) :=
  c2_concurrent_checks_admit_exactly_limit ⟨2, 60⟩ 0 3 (by norm_num) (by norm_num)

/-- A string known to differ from the empty string has isEmpty false. -/
lemma isEmpty_false_of_ne (k : String) (h : k ≠ "") : k.isEmpty = false := by
  cases he : k.isEmpty
  · rfl
  · exact absurd ((String.isEmpty_iff k).mp he) h

/-- Appending to a non-empty string never yields the empty string. -/
lemma append_ne_empty_left (s t : String) (hs : s ≠ "") : s ++ t ≠ "" := by
  intro hc
  apply hs
  have hd := congrArg String.data hc
  rw [String.data_append] at hd
  have h0 : s.data = [] := (List.append_eq_nil.mp hd).1
  cases s with
  | mk data =>
    have hdata : data = [] := h0
    rw [hdata]

/-- Identity of a request with a non-empty API key: the key branch. -/
lemma get_client_id_key (r : Request) (k : String) (hk : r.api_key = some k)
    (hne : k ≠ "") : get_client_id r = "key:" ++ k.take 16 := by
  have ht : truthy (some k) = true := by
    simp [truthy, isEmpty_false_of_ne k hne]
  unfold get_client_id
  rw [hk, ht]
  simp

/-- Identity of a request without a usable API key but with a non-empty
X-Forwarded-For header: the forwarded branch. -/
lemma get_client_id_forwarded (r : Request) (hkey : truthy r.api_key = false)
    (f : String) (hf : r.forwarded_for = some f) (hne : f ≠ "") :
    get_client_id r = "ip:" ++ ((f.splitOn ",").headD "").trim := by
  have ht : truthy (some f) = true := by
    simp [truthy, isEmpty_false_of_ne f hne]
  unfold get_client_id
  rw [hf, ht]
  simp [hkey]

/-- Identity of a request with no usable API key or forwarded header but
with a connected peer: the peer branch. -/
lemma get_client_id_host (r : Request) (hkey : truthy r.api_key = false)
    (hfwd : truthy r.forwarded_for = false) (host : String)
    (hch : r.client_host = some host) : get_client_id r = "ip:" ++ host := by
  simp [get_client_id, hkey, hfwd, hch]

/-- Identity of a request with no usable credential source at all: the
sentinel branch. -/
lemma get_client_id_unknown (r : Request) (hkey : truthy r.api_key = false)
    (hfwd : truthy r.forwarded_for = false) (hch : r.client_host = none) :
    get_client_id r = "ip:unknown" := by
  simp [get_client_id, hkey, hfwd, hch]

/-- A key produced by Settings.api_keys is never the empty string. -/
lemma mem_api_keys_ne_empty (s k : String) (h : k ∈ Settings.api_keys s) :
    k ≠ "" := by
  intro hk
  subst hk
  unfold Settings.api_keys at h
  split at h
  · simp at h
  · have hp := List.of_mem_filter h
    simp at hp
    exact absurd hp (by decide)

/-- C3 counterexample: a request supplying a valid API key together with
a bearer token is rejected with BearerNotConfigured instead of being
authenticated as an api_key principal, because the bearer dependency is
resolved (and raises) even when the key already verified. -/
theorem c3_counterexample :
    authenticate ["good_1234567890"] (some "good_1234567890") (some "sometoken") =
      .error .bearerNotConfigured ∧
    authenticate ["good_1234567890"] (some "good_1234567890") (some "sometoken") ≠
      .ok (.apiKeyPrincipal (("good_1234567890" : String).take 8 ++ "...")) := by
  have h0 : authenticate ["good_1234567890"] (some "good_1234567890") (some "sometoken") =
      .error .bearerNotConfigured := rfl
  exact ⟨h0, fun h => Except.noConfusion (h0.symm.trans h)⟩

/-- C3 amended: a request whose non-empty API key is in the configured
valid set and which supplies no bearer token authenticates as the
api_key principal carrying the first 8 characters of the key and an
ellipsis; the API key is checked first and wins. -/
theorem c3_valid_key_without_bearer_wins (validKeys : List String) (k : String)
    (hk : k ∈ validKeys) (hne : k ≠ "") :
    authenticate validKeys (some k) none =
      .ok (.apiKeyPrincipal (k.take 8 ++ "...")) := by
  have hE : k.isEmpty = false := isEmpty_false_of_ne k hne
  have h1 : verify_api_key validKeys (some k) = .ok (some k) := by
    simp [verify_api_key, hk]
  have h3 : get_current_user (some k) none =
      .ok (.apiKeyPrincipal (k.take 8 ++ "...")) := by
    simp [get_current_user, truthy, hE]
  simp [authenticate, h1, verify_bearer_token, h3]

/-- Witness for C3 at the spec's example key good_1234567890. -/
theorem c3_witness :
    authenticate ["good_1234567890"] (some "good_1234567890") none =
      .ok (.apiKeyPrincipal (("good_1234567890" : String).take 8 ++ "...")) :=
  c3_valid_key_without_bearer_wins ["good_1234567890"] "good_1234567890"
    (by decide) (by decide)

/-- C6 counterexample: the code never consults X-Real-IP (first input:
claimed priority picks the X-Real-IP value, the code returns the peer
address), and a present-but-empty X-API-Key header falls through to the
IP fallback instead of producing a key identity (second input). -/
theorem c6_counterexample :
    get_client_id ⟨none, none, some "9.9.9.9", some "1.2.3.4"⟩ ≠
      get_client_id_claimed ⟨none, none, some "9.9.9.9", some "1.2.3.4"⟩ ∧
    get_client_id ⟨some "", none, none, some "1.2.3.4"⟩ ≠
      get_client_id_claimed ⟨some "", none, none, some "1.2.3.4"⟩ := by
  decide

/-- C6 amended: client-identity derivation is a deterministic function of
the request that never yields the empty string, and follows this
priority: a non-empty X-API-Key yields key: plus its first 16 characters;
else a non-empty X-Forwarded-For yields ip: plus its first
comma-separated entry stripped; else the direct peer address as ip:host;
else the sentinel ip:unknown. X-Real-IP is never consulted. -/
theorem c6_client_id_priority (r : Request) :
    get_client_id r ≠ "" ∧
    (∀ k : String, r.api_key = some k → k ≠ "" →
      get_client_id r = "key:" ++ k.take 16) ∧
    (truthy r.api_key = false →
      ∀ f : String, r.forwarded_for = some f → f ≠ "" →
        get_client_id r = "ip:" ++ ((f.splitOn ",").headD "").trim) ∧
    (truthy r.api_key = false → truthy r.forwarded_for = false →
      ∀ host : String, r.client_host = some host →
        get_client_id r = "ip:" ++ host) ∧
    (truthy r.api_key = false → truthy r.forwarded_for = false →
      r.client_host = none → get_client_id r = "ip:unknown") := by
  refine ⟨?_, ?_, ?_, ?_, ?_⟩
  · cases t1 : truthy r.api_key
    · cases t2 : truthy r.forwarded_for
      · cases hch : r.client_host with
        | none =>
          rw [get_client_id_unknown r t1 t2 hch]
          decide
        | some host =>
          rw [get_client_id_host r t1 t2 host hch]
          exact append_ne_empty_left "ip:" _ (by decide)
      · cases hff : r.forwarded_for with
        | none =>
          rw [hff] at t2
          simp [truthy] at t2
        | some f =>
          have hfne : f ≠ "" := by
            rw [hff] at t2
            simp [truthy] at t2
            intro hkk
            rw [hkk] at t2
            exact absurd t2 (by decide)
          rw [get_client_id_forwarded r t1 f hff hfne]
          exact append_ne_empty_left "ip:" _ (by decide)
    · cases hak : r.api_key with
      | none =>
        rw [hak] at t1
        simp [truthy] at t1
      | some k =>
        have hkne : k ≠ "" := by
          rw [hak] at t1
          simp [truthy] at t1
          intro hkk
          rw [hkk] at t1
          exact absurd t1 (by decide)
        rw [get_client_id_key r k hak hkne]
        exact append_ne_empty_left "key:" _ (by decide)
  · intro k hk hne
    exact get_client_id_key r k hk hne
  · intro t1 f hf hne
    exact get_client_id_forwarded r t1 f hf hne
  · intro t1 t2 host hch
    exact get_client_id_host r t1 t2 host hch
  · intro t1 t2 hch
    exact get_client_id_unknown r t1 t2 hch

/-- Witness for C6: a request carrying only a 20-character API key gets
the key identity truncated to 16 characters, and it is not empty. -/
theorem c6_witness :
    get_client_id ⟨some "abcdefghijklmnopqrst", none, none, none⟩ ≠ "" ∧
    get_client_id ⟨some "abcdefghijklmnopqrst", none, none, none⟩ =
      "key:" ++ ("abcdefghijklmnopqrst" : String).take 16 := by
  have h := c6_client_id_priority ⟨some "abcdefghijklmnopqrst", none, none, none⟩
  exact ⟨h.1, h.2.1 "abcdefghijklmnopqrst" rfl (by decide)⟩

/-- C7 counterexample: the 401 raised for an invalid API key carries no
WWW-Authenticate header at all. -/
theorem c7_counterexample :
    (authErrorResponse .invalidApiKey).www_authenticate ≠ some "Bearer" := by
  decide

/-- C7 amended: every AuthError maps to HTTP 401, but the
WWW-Authenticate Bearer header is attached exactly on the
AuthenticationRequired failure; the invalid-key and bearer-not-configured
401 responses carry no WWW-Authenticate header. -/
theorem c7_auth_errors_are_401 (e : AuthError) :
    (authErrorResponse e).status = 401 ∧
    ((authErrorResponse e).www_authenticate = some "Bearer" ↔
      e = .authenticationRequired) := by
  cases e <;> simp [authErrorResponse]

/-- C9 counterexample: two requests whose X-API-Key values are both the
empty string agree on their first 16 characters, yet fall through to the
IP fallback and get different identities when their peers differ. -/
theorem c9_counterexample :
    ("" : String).take 16 = ("" : String).take 16 ∧
    get_client_id ⟨some "", none, none, some "1.1.1.1"⟩ ≠
      get_client_id ⟨some "", none, none, some "2.2.2.2"⟩ := by
  exact ⟨rfl, by decide⟩

/-- C9 amended: for any two requests whose X-API-Key values are non-empty
and agree on their first 16 characters, the derived identities coincide,
whatever the other headers and peers are: such requests share one
rate-limit bucket even when the full keys differ. -/
theorem c9_identity_depends_on_first_16 (r1 r2 : Request) (k1 k2 : String)
    (h1 : r1.api_key = some k1) (h2 : r2.api_key = some k2)
    (hne1 : k1 ≠ "") (hne2 : k2 ≠ "")
    (hpre : k1.take 16 = k2.take 16) :
    get_client_id r1 = get_client_id r2 := by
  rw [get_client_id_key r1 k1 h1 hne1, get_client_id_key r2 k2 h2 hne2, hpre]

/-- Witness for C9: two 20-character keys sharing their first 16
characters map to one identity despite different suffixes and peers. -/
theorem c9_witness :
    get_client_id ⟨some "abcdefghijklmnopAAAA", none, none, none⟩ =
      get_client_id ⟨some "abcdefghijklmnopBBBB", none, none, some "7.7.7.7"⟩ :=
  c9_identity_depends_on_first_16 _ _ _ _ rfl rfl (by decide) (by decide) (by decide)

/-- C10: with the default empty API_KEYS configuration the derived valid
key list is empty, so verify_api_key fails closed: every supplied key is
rejected with the 401 invalid-key error, while an absent header still
succeeds with an absent result. -/
theorem c10_empty_config_fails_closed :
    Settings.api_keys "" = [] ∧
    (∀ k : String, verify_api_key (Settings.api_keys "") (some k) =
      .error .invalidApiKey) ∧
    verify_api_key (Settings.api_keys "") none = .ok none ∧
    (authErrorResponse .invalidApiKey).status = 401 := by
  refine ⟨rfl, ?_, rfl, rfl⟩
  intro k
  simp [Settings.api_keys, verify_api_key]
